import Mathlib

/-!
Verification of the booking intake and verification pipeline of the
KN Express backend (Express + MongoDB courier booking service).

The definitions below are a shallow embedding of the JavaScript source:
pure helpers become Lean functions, the MongoDB collections become an
explicit `Store` value threaded through each handler, and the random /
external inputs (generated codes, SMS gateway outcome, current time)
become explicit parameters.
-/

set_option maxHeartbeats 1000000

namespace KNX

/-! ## Generic JavaScript-semantics helpers -/

/-- JS `needle` occurs as a contiguous sub-list of the haystack
(character-list model of `String.prototype.includes`). -/
def hasSubList (needle : List Char) : List Char → Bool
  | [] => needle.isEmpty
  | c :: cs => needle.isPrefixOf (c :: cs) || hasSubList needle cs

/-- JS `s.includes(sub)`. -/
def strHasSub (s sub : String) : Bool := hasSubList sub.data s.data

/-- JS `s.toLowerCase()` (ASCII, character-list model). -/
def jsToLower (s : String) : String := ⟨s.data.map Char.toLower⟩

/-- JS `s.toUpperCase()` (ASCII, character-list model). -/
def jsToUpper (s : String) : String := ⟨s.data.map Char.toUpper⟩

/-- JS `s.trim()`: drop leading and trailing whitespace. -/
def jsTrim (s : String) : String :=
  ⟨((s.data.dropWhile Char.isWhitespace).reverse.dropWhile Char.isWhitespace).reverse⟩

/-- JS `s.length` (code-unit count; all inputs here are plain characters). -/
def jsLength (s : String) : Nat := s.data.length

/-- JS `s.startsWith(p)`. -/
def jsStartsWith (s p : String) : Bool := p.data.isPrefixOf s.data

/-- Split a character list at every occurrence of the separator
(model of JS `String.prototype.split` with a one-character separator). -/
def splitCharAux (sep : Char) : List Char → List (List Char)
  | [] => [[]]
  | c :: cs =>
    if c == sep then [] :: splitCharAux sep cs
    else
      match splitCharAux sep cs with
      | t :: ts => (c :: t) :: ts
      | [] => [[c]]

/-- JS `s.split(sep)` for a one-character separator. -/
def jsSplit (s : String) (sep : Char) : List String :=
  (splitCharAux sep s.data).map (fun l => ⟨l⟩)

/-- JS `s.replace(/\s+/g, "")`: drop every whitespace character. -/
def stripWS (s : String) : String := ⟨s.data.filter (fun c => !c.isWhitespace)⟩

/-- The phone-number formatting used by every handler:
`phoneNumber.trim().replace(/\s+/g, "")`. -/
def fmtPhone (s : String) : String := stripWS (jsTrim s)

/-- JS falsiness test `!s || !s.trim()` used on required string inputs. -/
def jsStrBlank (s : String) : Bool := s == "" || jsTrim s == ""

/-- JS falsiness of an optional string field (`!field`): absent or empty. -/
def jsFalsyOpt (o : Option String) : Bool :=
  match o with
  | none => true
  | some s => s == ""

/-- JS `o || d` defaulting for an optional string field. -/
def jsOrStr (o : Option String) (d : String) : String :=
  match o with
  | none => d
  | some s => if s == "" then d else s

/-- Result of JS `Number(x)` on an arbitrary field: either `NaN`
(also covering the infinities, which equally fail `Number.isFinite`)
or a finite numeric value. -/
inductive NumVal where
  | nan : NumVal
  | fin (q : ℚ) : NumVal
deriving DecidableEq, Repr

/-! ## Identity name matcher (src/services/openai-ocr.js) -/

/-- Regex class `\w`: `[A-Za-z0-9_]`. -/
def isWordChar (c : Char) : Bool :=
  ('A' ≤ c && c ≤ 'Z') || ('a' ≤ c && c ≤ 'z') || ('0' ≤ c && c ≤ '9') || c == '_'

/-- Collapse every whitespace run to a single space
(JS `.replace(/\s+/g, " ")`); the boolean flag records whether the
previous character was whitespace. -/
def collapseWSAux : Bool → List Char → List Char
  | _, [] => []
  | prevWS, c :: cs =>
    if c.isWhitespace then
      if prevWS then collapseWSAux true cs
      else ' ' :: collapseWSAux true cs
    else c :: collapseWSAux false cs

/-- normalizeName from openai-ocr.js: empty-guard, uppercase, trim,
collapse internal whitespace, then strip `[^\w\s]`. -/
def normalizeName (name : String) : String :=
  if name == "" then ""
  else ⟨(collapseWSAux false (jsTrim (jsToUpper name)).data).filter
          (fun c => isWordChar c || c.isWhitespace)⟩

/-- Result record of compareNames. -/
structure NameMatchResult where
  isMatch : Bool
  confidence : ℚ
  message : String
deriving DecidableEq, Repr

/-- compareNames from openai-ocr.js, translated branch by branch.
The inner partial-match block literally re-evaluates the same first-token
and last-token equalities, exactly as the source does. -/
def compareNames (extractedName providedFirstName providedLastName : String) :
    NameMatchResult :=
  if extractedName == "" || providedFirstName == "" || providedLastName == "" then
    ⟨false, 0, "Missing name information for comparison"⟩
  else
    let normalizedExtracted := normalizeName extractedName
    let normalizedProvidedFirst := normalizeName providedFirstName
    let normalizedProvidedLast := normalizeName providedLastName
    let normalizedProvidedFull :=
      normalizeName (providedFirstName ++ " " ++ providedLastName)
    let extractedParts :=
      (jsSplit normalizedExtracted ' ').filter (fun p => jsLength p > 0)
    if extractedParts.isEmpty then
      ⟨false, 0, "Could not parse extracted name"⟩
    else if normalizedExtracted == normalizedProvidedFull then
      ⟨true, 1, "Name matches Emirates ID exactly"⟩
    else if (extractedParts.head? == some normalizedProvidedFirst) &&
            (extractedParts.getLast? == some normalizedProvidedLast) then
      ⟨true, mkRat 95 100, "Name matches Emirates ID"⟩
    else if extractedParts.head? == some normalizedProvidedFirst then
      ⟨false, mkRat 65 100, "First name matches but last name differs. Manual review recommended."⟩
    else if extractedParts.getLast? == some normalizedProvidedLast then
      ⟨false, mkRat 65 100, "Last name matches but first name differs. Manual review recommended."⟩
    else if (extractedParts.head? == some normalizedProvidedFirst) &&
            ((extractedParts.getLast? == some normalizedProvidedLast) ||
              extractedParts.any (fun part => part == normalizedProvidedLast)) then
      ⟨true, mkRat 85 100, "Name matches Emirates ID (with middle names)"⟩
    else if extractedParts.head? == some normalizedProvidedFirst then
      ⟨false, mkRat 65 100, "First name matches but last name differs. Manual review recommended."⟩
    else if (extractedParts.getLast? == some normalizedProvidedLast) ||
            extractedParts.any (fun part => part == normalizedProvidedLast) then
      ⟨false, mkRat 65 100, "Last name matches but first name differs. Manual review recommended."⟩
    else
      ⟨false, mkRat 2 10, "Name on Emirates ID does not match provided name. Manual review required."⟩

/-! ## AWB generation (part_004, AWB utilities) -/

/-- Regex class `[A-Z]`. -/
def isUpperAZ (c : Char) : Bool := 'A' ≤ c && c ≤ 'Z'

/-- Regex class `[0-9]`. -/
def isDigit09 (c : Char) : Bool := '0' ≤ c && c ≤ '9'

/-- Regex class `[A-Z0-9]`. -/
def isUpperOrDigit (c : Char) : Bool := isUpperAZ c || isDigit09 c

/-- Route detection shared by generateAWB / validateAWBFormat:
`(service || "uae-to-pinas").toLowerCase()` contains one of the three
Philippines-to-UAE markers. -/
def isPHService (service : Option String) : Bool :=
  let serviceLower := jsToLower (jsOrStr service "uae-to-pinas")
  strHasSub serviceLower "philippines-to-uae" ||
  strHasSub serviceLower "pinas-to-uae" ||
  strHasSub serviceLower "ph-to-uae"

/-- validateAWBFormat: length 17 and the anchored regex
PH-or-AE, two letters, three digits, two letters, eight alphanumerics. -/
def validateAWBFormat (awb : String) (service : Option String) : Bool :=
  if jsLength awb ≠ 17 then false
  else
    match awb.data with
    | c0 :: c1 :: a1 :: a2 :: d1 :: d2 :: d3 :: b1 :: b2 :: rest =>
      ([c0, c1] == (if isPHService service then ['P', 'H'] else ['A', 'E'])) &&
      isUpperAZ a1 && isUpperAZ a2 &&
      isDigit09 d1 && isDigit09 d2 && isDigit09 d3 &&
      isUpperAZ b1 && isUpperAZ b2 && rest.all isUpperOrDigit
    | _ => false

/-- generateUniqueAWB: bounded retry loop.  The random generateAWB calls
are modelled by the oracle `gen`, indexed by the iteration number; `fuel`
is the remaining attempt budget (`maxAttempts - attempts`); `existing` is
the set of AWB values already present in the bookings collection. -/
def genUniqueAWB (service : Option String) (existing : List String)
    (gen : Nat → String) : Nat → Nat → Option String
  | 0, _ => none
  | fuel + 1, iter =>
    let awb := gen iter
    if validateAWBFormat awb service = false then
      genUniqueAWB service existing gen fuel (iter + 1)
    else if existing.contains awb then
      genUniqueAWB service existing gen fuel (iter + 1)
    else some awb

/-! ## Persistent store model

MongoDB collections are modelled as in-memory lists in insertion order:
`findOne` is `List.find?`, `deleteOne` removes the first match,
`updateOne` rewrites the first match, `deleteMany` filters.  Document
`_id` values are modelled by a `Nat` counter. -/

/-- One document of the `otps` collection. -/
structure OTPRecord where
  id : Nat
  phoneNumber : String
  otp : String
  expiresAt : Nat
  verified : Bool
  attempts : Nat
  maxAttempts : Nat
deriving DecidableEq, Repr

/-- The `otpVerification` snapshot embedded in a booking document. -/
structure OTPSnapshot where
  phoneNumber : String
  otp : String
  verified : Bool
  verifiedAt : Nat
deriving DecidableEq, Repr

/-- One document of the bookings collection (restricted to the fields the
verified properties are about; `shipmentType` / `insured` /
`declaredAmount` are `none` exactly when the source omits them from the
document via the conditional spread). -/
structure Booking where
  awb : String
  service : String
  shipmentType : Option String
  insured : Option Bool
  declaredAmount : Option ℚ
  otpVerification : Option OTPSnapshot
  status : String
deriving DecidableEq, Repr

/-- The whole persistent store. -/
structure Store where
  otps : List OTPRecord
  bookings : List Booking
  nextId : Nat
deriving DecidableEq, Repr

/-- The empty store. -/
def emptyStore : Store := ⟨[], [], 0⟩

/-- `findOne({ phoneNumber, verified: false })` on the `otps` collection. -/
def findActiveOTP (store : Store) (phone : String) : Option OTPRecord :=
  store.otps.find? (fun r => r.phoneNumber == phone && r.verified == false)

/-- `deleteOne({ _id })` on the `otps` collection. -/
def deleteOTPById (store : Store) (i : Nat) : Store :=
  { store with otps := store.otps.eraseP (fun r => r.id == i) }

/-- Rewrite the first element satisfying the filter (Mongo `updateOne`). -/
def updateFirstWith (p : OTPRecord → Bool) (f : OTPRecord → OTPRecord) :
    List OTPRecord → List OTPRecord
  | [] => []
  | x :: xs => if p x then f x :: xs else x :: updateFirstWith p f xs

/-- `updateOne({ _id }, update)` on the `otps` collection. -/
def updateOTPById (store : Store) (i : Nat) (f : OTPRecord → OTPRecord) : Store :=
  { store with otps := updateFirstWith (fun r => r.id == i) f store.otps }

/-- `findOne({ _id })` on the `otps` collection. -/
def findOTPById (store : Store) (i : Nat) : Option OTPRecord :=
  store.otps.find? (fun r => r.id == i)

/-- isOTPExpired from the OTP service module (the second document inside
src/services/longcat-ocr.js): `return new Date() > new Date(expiryDate)`.
Instants are modelled as `Nat` timestamps; the current clock `new Date()`
is the explicit parameter `now`. -/
def isOTPExpired (expiresAt now : Nat) : Bool := now > expiresAt

/-- The `expiryMinutes` / `maxAttempts` pair returned by `getOTPConfig()`
in the OTP service module (src/services/longcat-ocr.js, second document;
concretely 5 and 3 there); kept as a parameter so the theorems cover any
configuration. -/
structure OTPConfig where
  expiryMinutes : Nat
  maxAttempts : Nat
deriving DecidableEq, Repr

/-! ## OTP endpoints (part_004, POST /api/otp/generate and /api/otp/verify) -/

/-- Response classification of POST /api/otp/generate. -/
inductive GenResult where
  | validationError (msg : String)
  | deliveryError
  | success (expiresInMinutes maxAttempts : Nat)
deriving DecidableEq, Repr

/-- POST /api/otp/generate.  The random 6-digit code from `generateOTP()`
is the parameter `code`, the expiry instant from `getOTPExpiry()` is
`expiry`, and the SMS gateway outcome is `smsOk`.  Mirrors part_004:
validate the phone number, `deleteMany` the existing unverified records
for the number, call the gateway, and insert the new record only after
the gateway acknowledged. -/
def otpGenerate (phoneNumber : String) (cfg : OTPConfig) (code : String)
    (expiry : Nat) (smsOk : Bool) (store : Store) : GenResult × Store :=
  if jsStrBlank phoneNumber then
    (.validationError "Phone number is required", store)
  else
    let formattedPhone := fmtPhone phoneNumber
    if !(jsStartsWith formattedPhone "+") then
      (.validationError "Phone number must include country code", store)
    else
      let store1 : Store :=
        { store with
          otps := store.otps.filter
            (fun r => !(r.phoneNumber == formattedPhone && r.verified == false)) }
      if smsOk then
        let newRec : OTPRecord :=
          { id := store1.nextId, phoneNumber := formattedPhone, otp := code,
            expiresAt := expiry, verified := false, attempts := 0,
            maxAttempts := cfg.maxAttempts }
        (.success cfg.expiryMinutes cfg.maxAttempts,
          { store1 with otps := store1.otps ++ [newRec], nextId := store1.nextId + 1 })
      else
        (.deliveryError, store1)

/-- Response classification of POST /api/otp/verify. -/
inductive VerifyResult where
  | validationError (msg : String)
  | notFound
  | expired
  | attemptsExhausted
  | mismatch (remainingAttempts : Nat)
  | success
deriving DecidableEq, Repr

/-- POST /api/otp/verify, mirrored step by step: lookup of the first
unverified record for the formatted number; expiry check (delete);
max-attempts check (delete) BEFORE the attempt increment and BEFORE the
code comparison; attempt increment; code comparison (with a re-fetch to
compute the remaining attempts); mark verified. -/
def otpVerify (phoneNumber otp : String) (now : Nat) (store : Store) :
    VerifyResult × Store :=
  if jsStrBlank phoneNumber then
    (.validationError "Phone number is required", store)
  else if jsStrBlank otp then
    (.validationError "OTP is required", store)
  else
    let formattedPhone := fmtPhone phoneNumber
    let providedOTP := jsTrim otp
    match findActiveOTP store formattedPhone with
    | none => (.notFound, store)
    | some r =>
      if isOTPExpired r.expiresAt now then
        (.expired, deleteOTPById store r.id)
      else if r.attempts ≥ r.maxAttempts then
        (.attemptsExhausted, deleteOTPById store r.id)
      else
        let store1 := updateOTPById store r.id
          (fun x => { x with attempts := x.attempts + 1 })
        if r.otp ≠ providedOTP then
          let remaining :=
            match findOTPById store1 r.id with
            | some u => u.maxAttempts - u.attempts
            | none => 0
          (.mismatch remaining, store1)
        else
          (.success, updateOTPById store1 r.id (fun x => { x with verified := true }))

/-- Iterated calls of POST /api/otp/verify with a fixed phone number,
code and clock, keeping only the evolving store. -/
def verifyIter (phoneNumber otp : String) (now : Nat) : Nat → Store → Store
  | 0, s => s
  | n + 1, s => verifyIter phoneNumber otp now n (otpVerify phoneNumber otp now s).2

/-- One OTP endpoint invocation, for reasoning about arbitrary call
sequences. -/
inductive OTPOp where
  | gen (phoneNumber : String) (cfg : OTPConfig) (code : String)
      (expiry : Nat) (smsOk : Bool)
  | verify (phoneNumber otp : String) (now : Nat)
deriving Repr

/-- Apply one OTP endpoint invocation to the store. -/
def applyOp (store : Store) : OTPOp → Store
  | .gen p cfg c e ok => (otpGenerate p cfg c e ok store).2
  | .verify p c now => (otpVerify p c now store).2

/-- Run a sequence of OTP endpoint invocations. -/
def runOps (store : Store) : List OTPOp → Store
  | [] => store
  | op :: ops => runOps (applyOp store op) ops

/-- Number of unverified OTP records for a given phone number. -/
def activeCount (store : Store) (p : String) : Nat :=
  (store.otps.filter (fun r => r.phoneNumber == p && r.verified == false)).length

/-- The per-phone-number uniqueness invariant of the `otps` collection. -/
def OTPInv (store : Store) : Prop := ∀ p, activeCount store p ≤ 1

/-! ## Booking endpoint (part_004, POST /api/bookings) -/

/-- The sender block of a booking submission (fields the handler reads
for validation; `declaredAmount` is carried as the result of the JS
`Number(...)` coercion the handler applies to it). -/
structure SenderIn where
  lastName : Option String
  country : Option String
  addressLine1 : Option String
  shipmentType : Option String
  declaredAmount : NumVal
deriving DecidableEq, Repr

/-- The receiver block of a booking submission. -/
structure ReceiverIn where
  lastName : Option String
  country : Option String
  addressLine1 : Option String
deriving DecidableEq, Repr

/-- A booking submission body (restricted to the fields the handler
validates; item contents are opaque). -/
structure BookingRequest where
  sender : Option SenderIn
  receiver : Option ReceiverIn
  items : Option (List String)
  service : Option String
  otpPhoneNumber : Option String
  otp : Option String
deriving DecidableEq, Repr

/-- The data the pure validation section of the handler (structural
checks, route derivation, shipment-type business rules) passes on to the
stateful part: the effective service string, the derived route, and the
shipment fields exactly as they will be embedded in the booking
document (absent on the philippines-to-uae route). -/
structure ValidData where
  service : String
  isPH : Bool
  shipmentType : Option String
  insured : Option Bool
  declaredAmount : Option ℚ
deriving DecidableEq, Repr

/-- Route test of the booking handler: `isUAEToPinas` is the conjunction
of the three negated marker tests on the lowercased service string. -/
def isUAEToPinas (service : String) : Bool :=
  let serviceLower := jsToLower service
  !(strHasSub serviceLower "philippines-to-uae") &&
  !(strHasSub serviceLower "pinas-to-uae") &&
  !(strHasSub serviceLower "ph-to-uae")

/-- The validation section of POST /api/bookings, in source order:
presence of sender / receiver / items; sender last name, country,
address length; receiver last name, country, address length; non-empty
item list; then the route-specific shipment-type rules, recording the
values the handler writes back into `bookingData.sender`. -/
def validateBooking (req : BookingRequest) : Except String ValidData :=
  match req.sender, req.receiver, req.items with
  | some sender, some receiver, some items =>
    if jsFalsyOpt sender.lastName then
      .error "Sender last name is required"
    else if jsFalsyOpt sender.country then
      .error "Sender country is required"
    else if !(jsFalsyOpt sender.addressLine1) &&
            jsLength (sender.addressLine1.getD "") > 200 then
      .error "Sender address line 1 must not exceed 200 characters"
    else if jsFalsyOpt receiver.lastName then
      .error "Receiver last name is required"
    else if jsFalsyOpt receiver.country then
      .error "Receiver country is required"
    else if !(jsFalsyOpt receiver.addressLine1) &&
            jsLength (receiver.addressLine1.getD "") > 200 then
      .error "Receiver address line 1 must not exceed 200 characters"
    else if items.isEmpty then
      .error "At least one item is required"
    else
      let service := jsOrStr req.service "uae-to-pinas"
      if isUAEToPinas service then
        if sender.shipmentType ≠ some "document" ∧
           sender.shipmentType ≠ some "non-document" then
          .error "sender.shipmentType must be \"document\" or \"non-document\""
        else if sender.shipmentType == some "document" then
          .ok ⟨service, false, some "document", some false, some 0⟩
        else
          match sender.declaredAmount with
          | .nan =>
            .error "sender.declaredAmount must be a number > 0 for non-document shipments"
          | .fin amount =>
            if amount ≤ 0 then
              .error "sender.declaredAmount must be a number > 0 for non-document shipments"
            else if amount > 1000000 then
              .error "sender.declaredAmount cannot exceed 1,000,000 AED"
            else
              .ok ⟨service, false, some "non-document", some true, some amount⟩
      else
        .ok ⟨service, true, none, none, none⟩
  | _, _, _ => .error "Missing required booking information (sender, receiver, items)"

/-- Response classification of POST /api/bookings. -/
inductive BookingOutcome where
  | rejected (msg : String)
  | accepted (awb : String)
deriving DecidableEq, Repr

/-- POST /api/bookings after the pure validation section: the mandatory
OTP presence check, the inline OTP verification (increment only on
mismatch), the unique-AWB issuance (oracle `gen` supplies the random
candidate codes), the defensive re-validation of the generated AWB, and
the booking-document assembly and insert.  `now` is the request clock. -/
def bookingSubmit (req : BookingRequest) (now : Nat) (gen : Nat → String)
    (store : Store) : BookingOutcome × Store :=
  match validateBooking req with
  | .error e => (.rejected e, store)
  | .ok v =>
    if jsFalsyOpt req.otpPhoneNumber || jsFalsyOpt req.otp then
      (.rejected "OTP verification is required. Please provide both phone number and OTP.",
        store)
    else
      match findActiveOTP store (fmtPhone (req.otpPhoneNumber.getD "")) with
      | none =>
        (.rejected "No OTP found for this phone number. Please generate and verify OTP first.",
          store)
      | some r =>
        if isOTPExpired r.expiresAt now then
          (.rejected "OTP has expired. Please generate a new OTP.", deleteOTPById store r.id)
        else if r.attempts ≥ r.maxAttempts then
          (.rejected "Maximum verification attempts exceeded. Please generate a new OTP.",
            deleteOTPById store r.id)
        else if r.otp ≠ jsTrim (req.otp.getD "") then
          (.rejected "Invalid OTP",
            updateOTPById store r.id (fun x => { x with attempts := x.attempts + 1 }))
        else
          match genUniqueAWB (some v.service) (store.bookings.map (fun b => b.awb))
              gen 10 0 with
          | none =>
            (.rejected "Failed to generate unique AWB. Please try again.",
              updateOTPById store r.id (fun x => { x with verified := true }))
          | some awb =>
            if validateAWBFormat awb (some v.service) = false then
              (.rejected "Generated AWB does not match required format",
                updateOTPById store r.id (fun x => { x with verified := true }))
            else
              (.accepted awb,
                { updateOTPById store r.id (fun x => { x with verified := true }) with
                  bookings := store.bookings ++
                    [{ awb := awb, service := v.service,
                       shipmentType := v.shipmentType, insured := v.insured,
                       declaredAmount := v.declaredAmount,
                       otpVerification :=
                         if r.otp == "" then none
                         else some ⟨fmtPhone (req.otpPhoneNumber.getD ""), r.otp, true, now⟩,
                       status := "pending" }] })

/-! ## Concrete sample data used to instantiate the theorems -/

/-- A stored, unverified, unexpired OTP record. -/
def sampleOTP : OTPRecord :=
  { id := 0, phoneNumber := "+971501234567", otp := "123456", expiresAt := 1000,
    verified := false, attempts := 0, maxAttempts := 3 }

/-- A store holding just the sample OTP record. -/
def sampleStore : Store := ⟨[sampleOTP], [], 1⟩

/-- A sender block for a uae-to-pinas non-document submission with
declared amount 500. -/
def sampleSender : SenderIn :=
  { lastName := some "CRUZ", country := some "UNITED ARAB EMIRATES",
    addressLine1 := some "Al Barsha 1", shipmentType := some "non-document",
    declaredAmount := .fin 500 }

/-- A receiver block. -/
def sampleReceiver : ReceiverIn :=
  { lastName := some "SANTOS", country := some "PHILIPPINES", addressLine1 := none }

/-- A complete uae-to-pinas non-document submission with declared
amount 500 and matching OTP data. -/
def sampleReq : BookingRequest :=
  { sender := some sampleSender, receiver := some sampleReceiver,
    items := some ["electronics"], service := some "uae-to-pinas",
    otpPhoneNumber := some "+971501234567", otp := some "123456" }

/-- The sample sender with shipment type document. -/
def sampleSenderDoc : SenderIn := { sampleSender with shipmentType := some "document" }

/-- The same submission with shipment type document. -/
def sampleReqDoc : BookingRequest :=
  { sampleReq with sender := some sampleSenderDoc }

/-- The same submission with declared amount 1500000. -/
def sampleReqOver : BookingRequest :=
  { sampleReq with sender := some { sampleSender with declaredAmount := .fin 1500000 } }

/-- AWB issuance oracle producing a fixed well-formed candidate. -/
def sampleGen : Nat → String := fun _ => "AEQP456RS00AA11BB"

/-! ## Helper lemmas -/

/-- Any AWB accepted by validateAWBFormat has length 17 and starts with
the route prefix. -/
theorem validateAWBFormat_props (awb : String) (service : Option String)
    (h : validateAWBFormat awb service = true) :
    jsLength awb = 17 ∧
    awb.data.take 2 = (if isPHService service then ['P', 'H'] else ['A', 'E']) := by
  unfold validateAWBFormat at h
  by_cases hlen : jsLength awb ≠ 17
  · rw [if_pos hlen] at h
    exact absurd h (by simp)
  · rw [if_neg hlen] at h
    refine ⟨not_not.mp hlen, ?_⟩
    split at h
    case _ c0 c1 a1 a2 d1 d2 d3 b1 b2 rest heq =>
      rw [heq]
      simp only [Bool.and_eq_true] at h
      have h1 := beq_iff_eq.mp h.1.1.1.1.1.1.1.1
      simpa using h1
    case _ => exact absurd h (by simp)

/-- A `find?` over a block of elements failing the filter skips it. -/
theorem find_skip_left {α : Type} (p : α → Bool) (l₁ l₂ : List α)
    (h : ∀ x ∈ l₁, p x = false) :
    (l₁ ++ l₂).find? p = l₂.find? p := by
  induction l₁ with
  | nil => rfl
  | cons a l ih =>
    rw [List.cons_append, List.find?_cons_of_neg _ (by simp [h a (List.mem_cons_self a l)])]
    exact ih (fun x hx => h x (List.mem_cons_of_mem a hx))

/-- Every survivor of the negated filter fails the filter. -/
theorem filter_not_all_false {α : Type} (p : α → Bool) (l : List α) :
    ∀ x ∈ l.filter (fun a => !p a), p x = false := by
  intro x hx
  have := (List.mem_filter.mp hx).2
  simpa using this

/-- updateFirstWith skips a block of elements failing the filter. -/
theorem updateFirstWith_skip (p : OTPRecord → Bool) (f : OTPRecord → OTPRecord)
    (l₁ l₂ : List OTPRecord) (h : ∀ x ∈ l₁, p x = false) :
    updateFirstWith p f (l₁ ++ l₂) = l₁ ++ updateFirstWith p f l₂ := by
  induction l₁ with
  | nil => rfl
  | cons a l ih =>
    rw [List.cons_append, updateFirstWith, if_neg (by simp [h a (List.mem_cons_self a l)])]
    rw [ih (fun x hx => h x (List.mem_cons_of_mem a hx))]
    rfl

/-- updateFirstWith cannot increase the number of elements matching a
predicate that the rewriting function never newly establishes. -/
theorem updateFirstWith_count_le (p : OTPRecord → Bool) (f : OTPRecord → OTPRecord)
    (q : OTPRecord → Bool) (hf : ∀ x, q (f x) = true → q x = true)
    (l : List OTPRecord) :
    ((updateFirstWith p f l).filter q).length ≤ (l.filter q).length := by
  induction l with
  | nil => simp [updateFirstWith]
  | cons a l ih =>
    by_cases hp : p a = true
    · rw [updateFirstWith, if_pos hp]
      by_cases hq : q (f a) = true
      · rw [List.filter_cons, if_pos hq, List.filter_cons, if_pos (hf a hq)]
        simp
      · rw [List.filter_cons, if_neg hq, List.filter_cons]
        by_cases hqa : q a = true
        · rw [if_pos hqa]; simp only [List.length_cons]; omega
        · rw [if_neg hqa]
    · rw [updateFirstWith, if_neg hp]
      rw [List.filter_cons, List.filter_cons]
      by_cases hqa : q a = true
      · rw [if_pos hqa, if_pos hqa]; simpa using ih
      · rw [if_neg hqa, if_neg hqa]; exact ih

/-- Erasing one element cannot increase the number of matches. -/
theorem eraseP_count_le (p q : OTPRecord → Bool) (l : List OTPRecord) :
    ((l.eraseP p).filter q).length ≤ (l.filter q).length :=
  ((l.eraseP_sublist).filter q).length_le

/-- Filtering first cannot increase the number of matches. -/
theorem filter_count_le (p q : OTPRecord → Bool) (l : List OTPRecord) :
    (((l.filter p).filter q)).length ≤ (l.filter q).length :=
  ((l.filter_sublist).filter q).length_le

/-! ## C1: generated AWBs are well-formed and fresh -/

/-- C1: every AWB returned by generateUniqueAWB validates against the
route format regex (so it has 17 characters and carries the PH prefix
exactly when the lowercased service contains a philippines-to-uae
marker, the AE prefix otherwise) and does not occur among the AWBs
already present in the bookings collection at issuance time. -/
theorem genUniqueAWB_valid_and_fresh (service : Option String) (existing : List String)
    (gen : Nat → String) (fuel iter : Nat) (awb : String)
    (h : genUniqueAWB service existing gen fuel iter = some awb) :
    validateAWBFormat awb service = true ∧ jsLength awb = 17 ∧
    awb.data.take 2 = (if isPHService service then ['P', 'H'] else ['A', 'E']) ∧
    existing.contains awb = false := by
  induction fuel generalizing iter with
  | zero => simp [genUniqueAWB] at h
  | succ n ih =>
    rw [genUniqueAWB] at h
    by_cases h1 : validateAWBFormat (gen iter) service = false
    · rw [if_pos h1] at h; exact ih _ h
    · rw [if_neg h1] at h
      by_cases h2 : existing.contains (gen iter) = true
      · rw [if_pos h2] at h; exact ih _ h
      · rw [if_neg h2] at h
        obtain rfl : gen iter = awb := by
          simpa using h
        have hval : validateAWBFormat (gen iter) service = true := by
          simpa using h1
        obtain ⟨hlen, htake⟩ := validateAWBFormat_props _ _ hval
        exact ⟨hval, hlen, htake, by simpa using h2⟩

/-- C1 witness: a concrete issuance over an empty bookings collection. -/
theorem genUniqueAWB_valid_and_fresh_wit :
    validateAWBFormat "AEQP456RS00AA11BB" (some "uae-to-pinas") = true ∧
    jsLength "AEQP456RS00AA11BB" = 17 ∧
    ("AEQP456RS00AA11BB" : String).data.take 2
      = (if isPHService (some "uae-to-pinas") then ['P', 'H'] else ['A', 'E']) ∧
    ([] : List String).contains "AEQP456RS00AA11BB" = false :=
  genUniqueAWB_valid_and_fresh (some "uae-to-pinas") [] sampleGen 10 0
    "AEQP456RS00AA11BB" (by decide)

/-! ## C2: the AHMED MOHAMMED ALI test vector -/

/-- C2 counterexample: compareNames on the claimed input returns
confidence 0.95, not 0.85 — the last extracted token equals the provided
last name, so the earlier both-tokens branch fires and the middle-name
branch is never consulted. -/
theorem compareNames_ahmed_not_085 :
    (compareNames "AHMED MOHAMMED ALI" "AHMED" "ALI").confidence ≠ mkRat 85 100 ∧
    (compareNames "AHMED MOHAMMED ALI" "AHMED" "ALI").isMatch = true := by
  decide

/-- C2 amended: compareNames("AHMED MOHAMMED ALI", "AHMED", "ALI")
returns a match with confidence exactly 0.95 via the branch where the
first extracted token equals the provided first name and the last
extracted token equals the provided last name. -/
theorem compareNames_ahmed_095 :
    compareNames "AHMED MOHAMMED ALI" "AHMED" "ALI"
      = ⟨true, mkRat 95 100, "Name matches Emirates ID"⟩ := by
  decide

/-! ## C9: the 0.85 tier is unreachable -/

/-- C9: for every input triple, compareNames never returns confidence
0.85 (the middle-name branch guard re-evaluates a first-token equality
that is already false on every path reaching it), and the confidence is
always one of 0, 0.2, 0.65, 0.95, 1.0. -/
theorem compareNames_confidence_tiers (e f l : String) :
    (compareNames e f l).confidence ≠ mkRat 85 100 ∧
    ((compareNames e f l).confidence = 0 ∨
     (compareNames e f l).confidence = mkRat 2 10 ∨
     (compareNames e f l).confidence = mkRat 65 100 ∨
     (compareNames e f l).confidence = mkRat 95 100 ∨
     (compareNames e f l).confidence = 1) := by
  simp only [compareNames]
  split_ifs <;>
    first
      | decide
      | (exfalso; simp only [Bool.and_eq_true] at *; tauto)

/-! ## C8: the OTP record is persisted only after SMS acknowledgment -/

/-- C8: when the SMS gateway rejects the send, /api/otp/generate reports
a delivery error and inserts nothing — the otps collection holds exactly
the old records minus the superseded unverified ones for this number,
and the id counter is unchanged; when the gateway acknowledges, the new
record (zero attempts, the configured maxAttempts) is appended. -/
theorem otpGenerate_sms_gate (p : String) (cfg : OTPConfig) (code : String)
    (expiry : Nat) (store : Store)
    (hp : jsStrBlank p = false)
    (hplus : jsStartsWith (fmtPhone p) "+" = true) :
    ((otpGenerate p cfg code expiry false store).1 = .deliveryError ∧
     (otpGenerate p cfg code expiry false store).2.otps
        = store.otps.filter (fun r => !(r.phoneNumber == fmtPhone p && r.verified == false)) ∧
     (otpGenerate p cfg code expiry false store).2.nextId = store.nextId ∧
     (otpGenerate p cfg code expiry false store).2.bookings = store.bookings) ∧
    ((otpGenerate p cfg code expiry true store).1
        = .success cfg.expiryMinutes cfg.maxAttempts ∧
     (otpGenerate p cfg code expiry true store).2.otps
        = store.otps.filter (fun r => !(r.phoneNumber == fmtPhone p && r.verified == false))
          ++ [{ id := store.nextId, phoneNumber := fmtPhone p, otp := code,
                expiresAt := expiry, verified := false, attempts := 0,
                maxAttempts := cfg.maxAttempts }]) := by
  simp [otpGenerate, hp, hplus]

/-- C8 witness: delivery failure versus acknowledgment on the sample
store. -/
theorem otpGenerate_sms_gate_wit :
    ((otpGenerate "+971501112222" ⟨5, 3⟩ "654321" 900 false sampleStore).1
        = .deliveryError ∧
     (otpGenerate "+971501112222" ⟨5, 3⟩ "654321" 900 false sampleStore).2.otps
        = sampleStore.otps.filter
            (fun r => !(r.phoneNumber == fmtPhone "+971501112222" && r.verified == false)) ∧
     (otpGenerate "+971501112222" ⟨5, 3⟩ "654321" 900 false sampleStore).2.nextId
        = sampleStore.nextId ∧
     (otpGenerate "+971501112222" ⟨5, 3⟩ "654321" 900 false sampleStore).2.bookings
        = sampleStore.bookings) ∧
    ((otpGenerate "+971501112222" ⟨5, 3⟩ "654321" 900 true sampleStore).1
        = .success 5 3 ∧
     (otpGenerate "+971501112222" ⟨5, 3⟩ "654321" 900 true sampleStore).2.otps
        = sampleStore.otps.filter
            (fun r => !(r.phoneNumber == fmtPhone "+971501112222" && r.verified == false))
          ++ [{ id := sampleStore.nextId, phoneNumber := fmtPhone "+971501112222",
                otp := "654321", expiresAt := 900, verified := false, attempts := 0,
                maxAttempts := 3 }]) :=
  otpGenerate_sms_gate "+971501112222" ⟨5, 3⟩ "654321" 900 sampleStore
    (by decide) (by decide)

/-! ## C4: missing OTP fields reject the submission before any mutation -/

/-- C4: a booking submission with an absent (or empty) otpPhoneNumber or
otp is rejected with a validation message, and the store it returns is
exactly the input store — no OTP update or delete and no booking insert
has happened. -/
theorem bookingSubmit_missing_otp (req : BookingRequest) (now : Nat)
    (gen : Nat → String) (store : Store)
    (h : jsFalsyOpt req.otpPhoneNumber = true ∨ jsFalsyOpt req.otp = true) :
    (∃ msg, (bookingSubmit req now gen store).1 = .rejected msg) ∧
    (bookingSubmit req now gen store).2 = store := by
  unfold bookingSubmit
  cases hv : validateBooking req with
  | error e => exact ⟨⟨e, rfl⟩, rfl⟩
  | ok v =>
    have hcond : (jsFalsyOpt req.otpPhoneNumber || jsFalsyOpt req.otp) = true := by
      rcases h with h | h <;> simp [h]
    simp [hcond]

/-- C4 witness: the sample request without its otp field. -/
theorem bookingSubmit_missing_otp_wit :
    (∃ msg, (bookingSubmit { sampleReq with otp := none } 500 sampleGen sampleStore).1
        = .rejected msg) ∧
    (bookingSubmit { sampleReq with otp := none } 500 sampleGen sampleStore).2
        = sampleStore :=
  bookingSubmit_missing_otp { sampleReq with otp := none } 500 sampleGen sampleStore
    (Or.inr (by decide))

/-! ## C3: uae-to-pinas shipment-type business rules -/

/-- On the uae-to-pinas route a validation success pins down the
shipment fields: the sender declared document or non-document;
document forces insured=false, declaredAmount=0; non-document forces
insured=true and requires a finite declared amount in (0, 1000000]. -/
theorem validateBooking_uae_ok (req : BookingRequest) (sender : SenderIn) (v : ValidData)
    (hs : req.sender = some sender)
    (h : validateBooking req = .ok v)
    (hroute : isUAEToPinas (jsOrStr req.service "uae-to-pinas") = true) :
    (sender.shipmentType = some "document" ∨ sender.shipmentType = some "non-document") ∧
    (sender.shipmentType = some "document" →
      v.shipmentType = some "document" ∧ v.insured = some false ∧
      v.declaredAmount = some 0) ∧
    (sender.shipmentType = some "non-document" →
      ∃ q, sender.declaredAmount = .fin q ∧ 0 < q ∧ q ≤ 1000000 ∧
        v.shipmentType = some "non-document" ∧ v.insured = some true ∧
        v.declaredAmount = some q) := by
  unfold validateBooking at h
  rw [hs] at h
  cases hr : req.receiver with
  | none => rw [hr] at h; exact absurd h (by simp)
  | some receiver =>
    cases hi : req.items with
    | none => rw [hr, hi] at h; exact absurd h (by simp)
    | some items =>
      rw [hr, hi] at h
      simp only at h
      have step : ∀ {c : Prop} [Decidable c] {e : String} {rest : Except String ValidData},
          (if c then Except.error e else rest) = Except.ok v → rest = Except.ok v := by
        intro c inst e rest hh
        by_cases hcc : c
        · rw [if_pos hcc] at hh; cases hh
        · rwa [if_neg hcc] at hh
      replace h := step (step (step (step (step (step (step h))))))
      rw [if_pos hroute] at h
      by_cases h9 : sender.shipmentType ≠ some "document" ∧
          sender.shipmentType ≠ some "non-document"
      · rw [if_pos h9] at h; cases h
      · rw [if_neg h9] at h
        by_cases h10 : (sender.shipmentType == some "document") = true
        · -- document branch
          rw [if_pos h10] at h
          have hdoc : sender.shipmentType = some "document" := beq_iff_eq.mp h10
          obtain rfl : (⟨jsOrStr req.service "uae-to-pinas", false, some "document",
              some false, some 0⟩ : ValidData) = v := by
            simpa using h
          refine ⟨Or.inl hdoc, fun _ => ⟨rfl, rfl, rfl⟩, fun hnd => ?_⟩
          rw [hdoc] at hnd
          exact absurd (Option.some.inj hnd) (by decide)
        · -- non-document branch
          rw [if_neg h10] at h
          have hnd : sender.shipmentType = some "non-document" := by
            rcases not_and_or.mp h9 with hh | hh
            · exact absurd (not_not.mp hh) (by simpa using h10)
            · exact not_not.mp hh
          cases hd : sender.declaredAmount with
          | nan => rw [hd] at h; cases h
          | fin amount =>
            rw [hd] at h
            simp only at h
            by_cases hle : amount ≤ 0
            · rw [if_pos hle] at h; cases h
            · rw [if_neg hle] at h
              by_cases hgt : amount > 1000000
              · rw [if_pos hgt] at h; cases h
              · rw [if_neg hgt] at h
                obtain rfl : (⟨jsOrStr req.service "uae-to-pinas", false,
                    some "non-document", some true, some amount⟩ : ValidData) = v := by
                  simpa using h
                refine ⟨Or.inr hnd, fun hdoc => ?_, fun _ =>
                  ⟨amount, rfl, lt_of_not_le hle, not_lt.mp hgt, rfl, rfl, rfl⟩⟩
                rw [hnd] at hdoc
                exact absurd (Option.some.inj hdoc) (by decide)

/-- C3: on the uae-to-pinas route the shipment-type rules hold: a
validation success requires shipmentType document or non-document with
the forced insurance fields and the (0, 1000000] declared-amount window
for non-document; a non-document submission with declaredAmount 1500000
is always rejected; and the sample non-document submission with
declaredAmount 500 is accepted with insured=true in the stored record. -/
theorem uae_shipment_type_rules :
    (∀ req sender v, req.sender = some sender →
      validateBooking req = .ok v →
      isUAEToPinas (jsOrStr req.service "uae-to-pinas") = true →
      (sender.shipmentType = some "document" ∨ sender.shipmentType = some "non-document") ∧
      (sender.shipmentType = some "document" →
        v.shipmentType = some "document" ∧ v.insured = some false ∧
        v.declaredAmount = some 0) ∧
      (sender.shipmentType = some "non-document" →
        ∃ q, sender.declaredAmount = .fin q ∧ 0 < q ∧ q ≤ 1000000 ∧
          v.shipmentType = some "non-document" ∧ v.insured = some true ∧
          v.declaredAmount = some q)) ∧
    (∀ req sender now gen store, req.sender = some sender →
      sender.shipmentType = some "non-document" →
      sender.declaredAmount = .fin 1500000 →
      isUAEToPinas (jsOrStr req.service "uae-to-pinas") = true →
      ∃ msg, (bookingSubmit req now gen store).1 = .rejected msg) ∧
    ((bookingSubmit sampleReq 500 sampleGen sampleStore).1
        = .accepted "AEQP456RS00AA11BB" ∧
     (bookingSubmit sampleReq 500 sampleGen sampleStore).2.bookings.map
        (fun b => (b.shipmentType, b.insured, b.declaredAmount))
        = [(some "non-document", some true, some 500)]) := by
  refine ⟨validateBooking_uae_ok, ?_, by decide, by decide⟩
  intro req sender now gen store hs hnd hamt hroute
  cases hv : validateBooking req with
  | error e =>
    refine ⟨e, ?_⟩
    unfold bookingSubmit
    rw [hv]
  | ok v =>
    exfalso
    obtain ⟨-, -, hq⟩ := validateBooking_uae_ok req sender v hs hv hroute
    obtain ⟨q, hq1, hq2, hq3, -⟩ := hq hnd
    rw [hamt] at hq1
    obtain rfl : (1500000 : ℚ) = q := by
      injection hq1
    norm_num at hq3

/-- C3 witness: the document-type sample request instantiates the
validation-success part of the rules. -/
theorem uae_shipment_type_rules_wit :
    sampleSenderDoc.shipmentType = some "document" ∨
    sampleSenderDoc.shipmentType = some "non-document" :=
  (uae_shipment_type_rules.1 sampleReqDoc sampleSenderDoc
    ⟨"uae-to-pinas", false, some "document", some false, some 0⟩
    rfl (by rfl) (by decide)).1

/-! ## C10: the booking stores the plaintext OTP code -/

/-- C10: every accepted booking submission appends a booking document
whose otpVerification snapshot holds the whitespace-stripped phone
number, verified=true, a verification timestamp, and the plaintext OTP
code itself — equal to the code stored in the matched OTP record, which
in turn equals the trimmed code the submitter supplied.  (The store
hypothesis records that real OTP records always carry a non-empty code:
generation writes a 6-digit code.) -/
theorem bookingSubmit_otp_snapshot (req : BookingRequest) (now : Nat)
    (gen : Nat → String) (store : Store) (awb : String)
    (hcodes : ∀ r ∈ store.otps, r.otp ≠ "")
    (h : (bookingSubmit req now gen store).1 = .accepted awb) :
    ∃ r b,
      findActiveOTP store (fmtPhone (req.otpPhoneNumber.getD "")) = some r ∧
      r.otp = jsTrim (req.otp.getD "") ∧
      (bookingSubmit req now gen store).2.bookings = store.bookings ++ [b] ∧
      b.otpVerification
        = some ⟨fmtPhone (req.otpPhoneNumber.getD ""), r.otp, true, now⟩ := by
  unfold bookingSubmit at h
  cases hv : validateBooking req with
  | error e => rw [hv] at h; exact absurd h (by simp)
  | ok v =>
    rw [hv] at h
    simp only at h
    by_cases hmiss : (jsFalsyOpt req.otpPhoneNumber || jsFalsyOpt req.otp) = true
    · rw [if_pos hmiss] at h; exact absurd h (by simp)
    · rw [if_neg hmiss] at h
      cases hf : findActiveOTP store (fmtPhone (req.otpPhoneNumber.getD "")) with
      | none => rw [hf] at h; exact absurd h (by simp)
      | some r =>
        rw [hf] at h
        simp only at h
        by_cases hexp : isOTPExpired r.expiresAt now = true
        · rw [if_pos hexp] at h; exact absurd h (by simp)
        · rw [if_neg hexp] at h
          by_cases hmax : r.attempts ≥ r.maxAttempts
          · rw [if_pos hmax] at h; exact absurd h (by simp)
          · rw [if_neg hmax] at h
            by_cases hmm : r.otp ≠ jsTrim (req.otp.getD "")
            · rw [if_pos hmm] at h; exact absurd h (by simp)
            · rw [if_neg hmm] at h
              cases hg : genUniqueAWB (some v.service)
                  (store.bookings.map (fun b => b.awb)) gen 10 0 with
              | none => rw [hg] at h; exact absurd h (by simp)
              | some awb2 =>
                rw [hg] at h
                simp only at h
                by_cases hval : validateAWBFormat awb2 (some v.service) = false
                · rw [if_pos hval] at h; exact absurd h (by simp)
                · rw [if_neg hval] at h
                  have hne : r.otp ≠ "" :=
                    hcodes r (List.mem_of_find?_eq_some hf)
                  have hbe : (r.otp == "") = false := beq_eq_false_iff_ne.mpr hne
                  have hres : bookingSubmit req now gen store
                      = (.accepted awb2,
                         { updateOTPById store r.id (fun x => { x with verified := true }) with
                           bookings := store.bookings ++
                             [{ awb := awb2, service := v.service,
                                shipmentType := v.shipmentType, insured := v.insured,
                                declaredAmount := v.declaredAmount,
                                otpVerification :=
                                  if r.otp == "" then none
                                  else some ⟨fmtPhone (req.otpPhoneNumber.getD ""), r.otp,
                                    true, now⟩,
                                status := "pending" }] }) := by
                    unfold bookingSubmit
                    rw [hv]
                    simp only
                    rw [if_neg hmiss, hf]
                    simp only
                    rw [if_neg hexp, if_neg hmax, if_neg hmm, hg]
                    simp only
                    rw [if_neg hval]
                  rw [hres]
                  refine ⟨r, _, rfl, not_not.mp hmm, rfl, ?_⟩
                  simp only [hbe]
                  rfl

/-- C10 witness: the accepted sample submission carries its OTP snapshot
with the plaintext code. -/
theorem bookingSubmit_otp_snapshot_wit :
    ∃ r b,
      findActiveOTP sampleStore (fmtPhone ((sampleReq.otpPhoneNumber).getD "")) = some r ∧
      r.otp = jsTrim ((sampleReq.otp).getD "") ∧
      (bookingSubmit sampleReq 500 sampleGen sampleStore).2.bookings
        = sampleStore.bookings ++ [b] ∧
      b.otpVerification
        = some ⟨fmtPhone ((sampleReq.otpPhoneNumber).getD ""), r.otp, true, 500⟩ :=
  bookingSubmit_otp_snapshot sampleReq 500 sampleGen sampleStore "AEQP456RS00AA11BB"
    (by decide) (by decide)

/-! ## C5: verify fails after maxAttempts even with the correct code -/

/-- Each wrong-code verify call on a live singleton record increments its
attempt counter by one and keeps everything else unchanged. -/
theorem verifyIter_wrong_code (p c : String) (now : Nat) (r : OTPRecord)
    (bk : List Booking) (nid : Nat)
    (hp : jsStrBlank p = false) (hc : jsStrBlank c = false)
    (hphone : r.phoneNumber = fmtPhone p) (hver : r.verified = false)
    (hexp : isOTPExpired r.expiresAt now = false)
    (hwrong : r.otp ≠ jsTrim c) :
    ∀ k a, a + k ≤ r.maxAttempts →
      verifyIter p c now k ⟨[{ r with attempts := a }], bk, nid⟩
        = ⟨[{ r with attempts := a + k }], bk, nid⟩ := by
  intro k
  induction k with
  | zero => intro a ha; simp [verifyIter]
  | succ n ih =>
    intro a ha
    rw [verifyIter]
    have hnot : ¬(({ r with attempts := a } : OTPRecord).attempts
        ≥ ({ r with attempts := a } : OTPRecord).maxAttempts) := by
      simp only
      omega
    have hfind : findActiveOTP ⟨[{ r with attempts := a }], bk, nid⟩ (fmtPhone p)
        = some { r with attempts := a } := by
      unfold findActiveOTP
      rw [List.find?_cons_of_pos _ (by simp [hphone, hver])]
    have hstep : (otpVerify p c now ⟨[{ r with attempts := a }], bk, nid⟩).2
        = ⟨[{ r with attempts := a + 1 }], bk, nid⟩ := by
      unfold otpVerify
      rw [if_neg (by simp [hp]), if_neg (by simp [hc])]
      simp only
      rw [hfind]
      simp only
      rw [if_neg (by simp [hexp]), if_neg hnot, if_pos (by simp [hwrong])]
      simp [updateOTPById, updateFirstWith]
    rw [hstep, ih (a + 1) (by omega)]
    have : a + 1 + n = a + (n + 1) := by omega
    rw [this]

/-- C5: for an unexpired, unverified record, after maxAttempts wrong-code
verify calls the attempt counter equals maxAttempts, and the next call —
whatever code it supplies, the correct one included — fails with the
attempts-exhausted error and deletes the record: the exhaustion check
precedes both the attempt increment and the code comparison. -/
theorem otpVerify_attempts_exhaustion (p c cFinal : String) (now : Nat)
    (r : OTPRecord) (bk : List Booking) (nid : Nat)
    (hp : jsStrBlank p = false) (hc : jsStrBlank c = false)
    (hcf : jsStrBlank cFinal = false)
    (hphone : r.phoneNumber = fmtPhone p) (hver : r.verified = false)
    (hatt : r.attempts = 0)
    (hexp : isOTPExpired r.expiresAt now = false)
    (hwrong : r.otp ≠ jsTrim c) :
    (verifyIter p c now r.maxAttempts ⟨[r], bk, nid⟩).otps
        = [{ r with attempts := r.maxAttempts }] ∧
    (otpVerify p cFinal now (verifyIter p c now r.maxAttempts ⟨[r], bk, nid⟩)).1
        = .attemptsExhausted ∧
    (otpVerify p cFinal now (verifyIter p c now r.maxAttempts ⟨[r], bk, nid⟩)).2.otps
        = [] := by
  have hr0 : ({ r with attempts := 0 } : OTPRecord) = r := by
    cases r
    simp only at hatt
    simp [hatt]
  have hiter : verifyIter p c now r.maxAttempts ⟨[r], bk, nid⟩
      = ⟨[{ r with attempts := r.maxAttempts }], bk, nid⟩ := by
    have := verifyIter_wrong_code p c now r bk nid hp hc hphone hver hexp hwrong
      r.maxAttempts 0 (by omega)
    rw [hr0] at this
    simpa using this
  have hfind : findActiveOTP ⟨[{ r with attempts := r.maxAttempts }], bk, nid⟩
      (fmtPhone p) = some { r with attempts := r.maxAttempts } := by
    unfold findActiveOTP
    rw [List.find?_cons_of_pos _ (by simp [hphone, hver])]
  have hfinal : otpVerify p cFinal now
      ⟨[{ r with attempts := r.maxAttempts }], bk, nid⟩
      = (.attemptsExhausted, ⟨[], bk, nid⟩) := by
    unfold otpVerify
    rw [if_neg (by simp [hp]), if_neg (by simp [hcf])]
    simp only
    rw [hfind]
    simp only
    rw [if_neg (by simp [hexp]), if_pos (by simp)]
    simp [deleteOTPById, List.eraseP]
  rw [hiter, hfinal]
  exact ⟨rfl, rfl, rfl⟩

/-- C5 witness: the sample record (3 attempts) with three wrong calls
and a fourth call carrying the correct code. -/
theorem otpVerify_attempts_exhaustion_wit :
    (verifyIter "+971501234567" "000000" 500 sampleOTP.maxAttempts
        ⟨[sampleOTP], [], 1⟩).otps
      = [{ sampleOTP with attempts := sampleOTP.maxAttempts }] ∧
    (otpVerify "+971501234567" "123456" 500
        (verifyIter "+971501234567" "000000" 500 sampleOTP.maxAttempts
          ⟨[sampleOTP], [], 1⟩)).1 = .attemptsExhausted ∧
    (otpVerify "+971501234567" "123456" 500
        (verifyIter "+971501234567" "000000" 500 sampleOTP.maxAttempts
          ⟨[sampleOTP], [], 1⟩)).2.otps = [] :=
  otpVerify_attempts_exhaustion "+971501234567" "000000" "123456" 500 sampleOTP [] 1
    (by decide) (by decide) (by decide) (by decide) (by decide) (by decide)
    (by decide) (by decide)

/-! ## C6: generate-then-verify succeeds exactly once -/

/-- C6: for a valid phone number, generate immediately followed by
verify with the generated code succeeds, and a second verify with the
same number and code fails with the not-found error: marking the record
verified removes it from the verified:false lookup, so a consumed code
is never matched again. -/
theorem otp_generate_then_verify_once (p c : String) (cfg : OTPConfig)
    (expiry now now2 : Nat) (store : Store)
    (hp : jsStrBlank p = false)
    (hplus : jsStartsWith (fmtPhone p) "+" = true)
    (hc : jsStrBlank c = false)
    (hctrim : jsTrim c = c)
    (hexp : isOTPExpired expiry now = false)
    (hmax : 0 < cfg.maxAttempts)
    (hwf : ∀ r ∈ store.otps, r.id < store.nextId) :
    (otpGenerate p cfg c expiry true store).1
        = .success cfg.expiryMinutes cfg.maxAttempts ∧
    (otpVerify p c now (otpGenerate p cfg c expiry true store).2).1 = .success ∧
    (otpVerify p c now2
        ((otpVerify p c now (otpGenerate p cfg c expiry true store).2).2)).1
      = .notFound := by
  have hgen : otpGenerate p cfg c expiry true store
      = (.success cfg.expiryMinutes cfg.maxAttempts,
         ⟨store.otps.filter (fun r => !(r.phoneNumber == fmtPhone p && r.verified == false))
            ++ [(⟨store.nextId, fmtPhone p, c, expiry, false, 0, cfg.maxAttempts⟩ : OTPRecord)],
          store.bookings, store.nextId + 1⟩) := by
    unfold otpGenerate
    rw [if_neg (by simp [hp])]
    simp only
    rw [if_neg (by simp [hplus])]
    simp
  have hfil : ∀ x ∈ store.otps.filter (fun r => !(r.phoneNumber == fmtPhone p && r.verified == false)),
      (x.phoneNumber == fmtPhone p && x.verified == false) = false :=
    filter_not_all_false _ _
  have hids : ∀ x ∈ store.otps.filter (fun r => !(r.phoneNumber == fmtPhone p && r.verified == false)),
      (x.id == store.nextId) = false := by
    intro x hx
    exact beq_eq_false_iff_ne.mpr (Nat.ne_of_lt (hwf x (List.mem_of_mem_filter hx)))
  have hfind1 : findActiveOTP
      ⟨store.otps.filter (fun r => !(r.phoneNumber == fmtPhone p && r.verified == false))
          ++ [(⟨store.nextId, fmtPhone p, c, expiry, false, 0, cfg.maxAttempts⟩ : OTPRecord)],
        store.bookings, store.nextId + 1⟩ (fmtPhone p)
      = some (⟨store.nextId, fmtPhone p, c, expiry, false, 0, cfg.maxAttempts⟩ : OTPRecord) := by
    unfold findActiveOTP
    rw [find_skip_left _ _ _ hfil, List.find?_cons_of_pos _ (by simp)]
  have hupd1 : updateOTPById
      ⟨store.otps.filter (fun r => !(r.phoneNumber == fmtPhone p && r.verified == false))
          ++ [(⟨store.nextId, fmtPhone p, c, expiry, false, 0, cfg.maxAttempts⟩ : OTPRecord)],
        store.bookings, store.nextId + 1⟩ store.nextId
      (fun x => { x with attempts := x.attempts + 1 })
      = ⟨store.otps.filter (fun r => !(r.phoneNumber == fmtPhone p && r.verified == false))
            ++ [(⟨store.nextId, fmtPhone p, c, expiry, false, 1, cfg.maxAttempts⟩ : OTPRecord)],
          store.bookings, store.nextId + 1⟩ := by
    unfold updateOTPById
    simp only
    rw [updateFirstWith_skip _ _ _ _ hids]
    simp [updateFirstWith]
  have hupd2 : updateOTPById
      ⟨store.otps.filter (fun r => !(r.phoneNumber == fmtPhone p && r.verified == false))
          ++ [(⟨store.nextId, fmtPhone p, c, expiry, false, 1, cfg.maxAttempts⟩ : OTPRecord)],
        store.bookings, store.nextId + 1⟩ store.nextId
      (fun x => { x with verified := true })
      = ⟨store.otps.filter (fun r => !(r.phoneNumber == fmtPhone p && r.verified == false))
            ++ [(⟨store.nextId, fmtPhone p, c, expiry, true, 1, cfg.maxAttempts⟩ : OTPRecord)],
          store.bookings, store.nextId + 1⟩ := by
    unfold updateOTPById
    simp only
    rw [updateFirstWith_skip _ _ _ _ hids]
    simp [updateFirstWith]
  have hver1 : otpVerify p c now
      ⟨store.otps.filter (fun r => !(r.phoneNumber == fmtPhone p && r.verified == false))
          ++ [(⟨store.nextId, fmtPhone p, c, expiry, false, 0, cfg.maxAttempts⟩ : OTPRecord)],
        store.bookings, store.nextId + 1⟩
      = (.success,
         ⟨store.otps.filter (fun r => !(r.phoneNumber == fmtPhone p && r.verified == false))
              ++ [(⟨store.nextId, fmtPhone p, c, expiry, true, 1, cfg.maxAttempts⟩ : OTPRecord)],
            store.bookings, store.nextId + 1⟩) := by
    unfold otpVerify
    rw [if_neg (by simp [hp]), if_neg (by simp [hc])]
    simp only
    rw [hfind1]
    simp only
    rw [if_neg (by simp [hexp]), if_neg (by omega),
      if_neg (by simp [hctrim]), hupd1, hupd2]
  have hfind2 : findActiveOTP
      ⟨store.otps.filter (fun r => !(r.phoneNumber == fmtPhone p && r.verified == false))
          ++ [(⟨store.nextId, fmtPhone p, c, expiry, true, 1, cfg.maxAttempts⟩ : OTPRecord)],
        store.bookings, store.nextId + 1⟩ (fmtPhone p) = none := by
    unfold findActiveOTP
    rw [find_skip_left _ _ _ hfil, List.find?_cons_of_neg _ (by simp)]
    rfl
  refine ⟨by rw [hgen], ?_, ?_⟩
  · rw [hgen]
    try simp only
    rw [hver1]
  · rw [hgen]
    try simp only
    rw [hver1]
    try simp only
    unfold otpVerify
    rw [if_neg (by simp [hp]), if_neg (by simp [hc])]
    simp only
    rw [hfind2]

/-- C6 witness: a fresh generate and double verify on the empty store. -/
theorem otp_generate_then_verify_once_wit :
    (otpGenerate "+971501112222" ⟨5, 3⟩ "654321" 1000 true emptyStore).1
        = .success 5 3 ∧
    (otpVerify "+971501112222" "654321" 400
        (otpGenerate "+971501112222" ⟨5, 3⟩ "654321" 1000 true emptyStore).2).1
      = .success ∧
    (otpVerify "+971501112222" "654321" 450
        ((otpVerify "+971501112222" "654321" 400
          (otpGenerate "+971501112222" ⟨5, 3⟩ "654321" 1000 true emptyStore).2).2)).1
      = .notFound :=
  otp_generate_then_verify_once "+971501112222" "654321" ⟨5, 3⟩ 1000 400 450 emptyStore
    (by decide) (by decide) (by decide) (by decide) (by decide) (by decide)
    (by decide)

/-! ## C7: at most one unverified record per phone number -/

/-- C7: the per-phone uniqueness invariant is preserved by every OTP
endpoint invocation — generate deletes all unverified records for the
number before inserting exactly one, and verify only rewrites or
deletes existing records — so no generate/verify sequence starting from
the empty store ever yields two unverified records for one number. -/
theorem otp_unverified_uniqueness :
    (∀ store op, OTPInv store → OTPInv (applyOp store op)) ∧
    (∀ ops, OTPInv (runOps emptyStore ops)) := by
  have hgen : ∀ store p cfg c e ok, OTPInv store →
      OTPInv (otpGenerate p cfg c e ok store).2 := by
    intro store p cfg c e ok hInv
    unfold otpGenerate
    by_cases h1 : jsStrBlank p = true
    · rw [if_pos h1]; exact hInv
    · rw [if_neg h1]
      simp only
      by_cases h2 : (!(jsStartsWith (fmtPhone p) "+")) = true
      · rw [if_pos h2]; exact hInv
      · rw [if_neg h2]
        by_cases h3 : ok = true
        · rw [if_pos h3]
          intro q
          unfold activeCount
          simp only [List.filter_append, List.length_append]
          by_cases hq : fmtPhone p = q
          · have hz : ((store.otps.filter
                (fun r => !(r.phoneNumber == fmtPhone p && r.verified == false))).filter
                (fun r => r.phoneNumber == q && r.verified == false)).length = 0 := by
              rw [List.length_eq_zero, List.filter_eq_nil_iff]
              intro a ha
              have hfa := filter_not_all_false
                (fun r => r.phoneNumber == fmtPhone p && r.verified == false) store.otps a ha
              simp only at hfa
              rw [← hq]
              simp [hfa]
              intro hpa
              simp [hpa] at hfa
              simpa using hfa
            rw [hz]
            have hone : ((([(⟨store.nextId, fmtPhone p, c, e, false, 0,
                cfg.maxAttempts⟩ : OTPRecord)]).filter
                (fun r => r.phoneNumber == q && r.verified == false)).length) ≤ 1 := by
              have := List.length_filter_le
                (fun (r : OTPRecord) => r.phoneNumber == q && r.verified == false)
                [(⟨store.nextId, fmtPhone p, c, e, false, 0, cfg.maxAttempts⟩ : OTPRecord)]
              simpa using this
            omega
          · have hone : ((([(⟨store.nextId, fmtPhone p, c, e, false, 0,
                cfg.maxAttempts⟩ : OTPRecord)]).filter
                (fun r => r.phoneNumber == q && r.verified == false)).length) = 0 := by
              rw [List.length_eq_zero, List.filter_eq_nil_iff]
              intro a ha
              simp only [List.mem_singleton] at ha
              subst ha
              simp [hq]
            rw [hone]
            have := le_trans (filter_count_le
              (fun r => !(r.phoneNumber == fmtPhone p && r.verified == false))
              (fun r => r.phoneNumber == q && r.verified == false) store.otps) (hInv q)
            unfold activeCount at this
            omega
        · rw [if_neg h3]
          intro q
          unfold activeCount
          exact le_trans (filter_count_le _ _ _) (hInv q)
  have hverify : ∀ store p c now, OTPInv store → OTPInv (otpVerify p c now store).2 := by
    intro store p c now hInv
    unfold otpVerify
    by_cases h1 : jsStrBlank p = true
    · rw [if_pos h1]; exact hInv
    · rw [if_neg h1]
      by_cases h2 : jsStrBlank c = true
      · rw [if_pos h2]; exact hInv
      · rw [if_neg h2]
        simp only
        cases hf : findActiveOTP store (fmtPhone p) with
        | none => exact hInv
        | some r =>
          simp only
          by_cases hexp : isOTPExpired r.expiresAt now = true
          · rw [if_pos hexp]
            intro q
            unfold activeCount deleteOTPById
            exact le_trans (eraseP_count_le _ _ _) (hInv q)
          · rw [if_neg hexp]
            by_cases hmax : r.attempts ≥ r.maxAttempts
            · rw [if_pos hmax]
              intro q
              unfold activeCount deleteOTPById
              exact le_trans (eraseP_count_le _ _ _) (hInv q)
            · rw [if_neg hmax]
              by_cases hmm : r.otp ≠ jsTrim c
              · rw [if_pos hmm]
                intro q
                unfold activeCount updateOTPById
                refine le_trans (updateFirstWith_count_le _ _ _ ?_ _) (hInv q)
                intro x hx
                simpa using hx
              · rw [if_neg hmm]
                intro q
                unfold activeCount updateOTPById
                refine le_trans (updateFirstWith_count_le _ _ _ ?_ _)
                  (le_trans (updateFirstWith_count_le _ _ _ ?_ _) (hInv q))
                · intro x hx
                  simp at hx
                · intro x hx
                  simpa using hx
  refine ⟨?_, ?_⟩
  · intro store op hInv
    cases op with
    | gen p cfg c e ok => exact hgen store p cfg c e ok hInv
    | verify p c now => exact hverify store p c now hInv
  · intro ops
    have hEmpty : OTPInv emptyStore := by
      intro q
      simp [activeCount, emptyStore]
    suffices hrun : ∀ ops store, OTPInv store → OTPInv (runOps store ops) by
      exact hrun ops emptyStore hEmpty
    intro ops
    induction ops with
    | nil => intro store h; exact h
    | cons op ops ih =>
      intro store h
      refine ih _ ?_
      cases op with
      | gen p cfg c e ok => exact hgen store p cfg c e ok h
      | verify p c now => exact hverify store p c now h

/-- C7 witness: the invariant after a concrete generate and verify
starting from a singleton store and from the empty store. -/
theorem otp_unverified_uniqueness_wit :
    OTPInv (applyOp emptyStore (.gen "+971501112222" ⟨5, 3⟩ "654321" 900 true)) ∧
    OTPInv (runOps emptyStore
      [.gen "+971501234567" ⟨5, 3⟩ "123456" 1000 true,
       .verify "+971501234567" "123456" 400]) :=
  ⟨otp_unverified_uniqueness.1 emptyStore (.gen "+971501112222" ⟨5, 3⟩ "654321" 900 true)
     (fun q => by simp [activeCount, emptyStore]),
   otp_unverified_uniqueness.2
     [.gen "+971501234567" ⟨5, 3⟩ "123456" 1000 true,
      .verify "+971501234567" "123456" 400]⟩

end KNX
